import Mathlib

/-!
Shallow embedding of the admission-controlled priority job scheduler in
`src/services/smartQueueService.js` (class `SmartQueueService`), together with
proofs about its admission, dispatch, retry, rate-limiting and monitoring
behaviour.

Modelling conventions:
* JavaScript numbers that hold millisecond timestamps or counters are modelled
  as `Int` (they never approach 2^53 in the modelled scenarios, so integer
  arithmetic is exact); the rolling average processing time, which is a
  genuine float, is modelled as `ℚ`.
* Absent object fields (`undefined`) are modelled with `Option`; the
  JavaScript `x || d` fallback (which also replaces `0` and `""`) is modelled
  by the `jsOr*` helpers.
* The Redis lists `queue:files` / `queue:urls` / `queue:retry` are `List Job`
  with `lpush` = cons at the head and `rpop` = take from the tail.
* The Redis status store and the per-user hash are modelled as total
  functions with default values, matching Redis reads of missing keys.
* Asynchronous results of the remote RunPod call and of status polling are
  passed in as explicit parameters (`RunpodOutcome`, `PollOutcome`).
-/

namespace SmartQueue

/-- JavaScript truthiness of an optional string (`undefined` and `""` are falsy). -/
def jsTruthyStr (o : Option String) : Bool :=
  match o with
  | some s => decide (s ≠ "")
  | none => false

/-- JavaScript `o || d` for an optional string (`undefined` and `""` fall back). -/
def jsOrStr (o : Option String) (d : String) : String :=
  match o with
  | some s => if s = "" then d else s
  | none => d

/-- JavaScript `o || d` for an optional natural number (`undefined` and `0` fall back). -/
def jsOrNat (o : Option Nat) (d : Nat) : Nat :=
  match o with
  | some n => if n = 0 then d else n
  | none => d

/-- JavaScript `o || d` for an optional integer (`undefined` and `0` fall back). -/
def jsOrInt (o : Option Int) (d : Int) : Int :=
  match o with
  | some n => if n = 0 then d else n
  | none => d

/-- Is `pre` a prefix of `l`? (character-list version of a string prefix test). -/
def isPrefixCL : List Char → List Char → Bool
  | [], _ => true
  | _ :: _, [] => false
  | a :: as, b :: bs => a = b && isPrefixCL as bs

/-- Does `needle` occur as a contiguous segment of `hay`? -/
def isInfixCL (needle : List Char) : List Char → Bool
  | [] => isPrefixCL needle []
  | h :: tl => isPrefixCL needle (h :: tl) || isInfixCL needle tl

/-- JavaScript `s.includes(sub)`. -/
def jsIncludes (s sub : String) : Bool :=
  isInfixCL sub.toList s.toList

/-- `Math.ceil` on a rational (JavaScript floats are exact on the values that occur here). -/
def jsCeil (x : ℚ) : Int := Int.ceil x

/-- `Math.ceil(a / b)` for integer operands. -/
def jsCeilDivQ (a b : Int) : Int := Int.ceil ((a : ℚ) / (b : ℚ))

/-- The environment-derived configuration constants of the constructor
(`RUNPOD_RATE_LIMIT`, `MAX_CONCURRENT_JOBS`, `PRIORITY_FILE_LIMIT`,
`MAX_QUEUE_SIZE`), with their default values. -/
structure Config where
  RUNPOD_RATE_LIMIT : Nat := 8
  MAX_CONCURRENT_JOBS : Int := 5
  PRIORITY_FILE_LIMIT : Int := 3
  MAX_QUEUE_SIZE : Nat := 50
deriving DecidableEq

/-- Job priority class (`'HIGH'` / `'NORMAL'`). -/
inductive Priority where
  | HIGH
  | NORMAL
deriving DecidableEq

/-- A job record as it travels through the queues: the caller-supplied fields
plus the fields added by `addJob` (`priority`, `addedAt`, `retryCount`,
`estimatedTime`) and by `addJobToRetryQueue` (`retryAt`, `lastError`).
Optional fields model absent (`undefined`) object properties. -/
structure Job where
  separationId : Option String := none
  userId : Option String := none
  storageType : Option String := none
  filePath : Option String := none
  publicUrl : Option String := none
  fileSize : Option Int := none
  priority : Option Priority := none
  addedAt : Option Int := none
  retryCount : Option Nat := none
  estimatedTime : Option Int := none
  retryAt : Option Int := none
  lastError : Option String := none
deriving DecidableEq

/-- An entry of the in-memory `processingJobs` map: the job spread together
with `startedAt`, `runpodJobId` and `runpodSubmittedAt`. -/
structure ProcJob where
  job : Job
  startedAt : Int
  runpodJobId : Option String := none
  runpodSubmittedAt : Option Int := none
deriving DecidableEq

/-- The status codes written by `updateJobStatus` callers. -/
inductive JStatus where
  | QUEUED
  | PROCESSING
  | COMPLETE
  | FAILED
  | TIMEOUT
  | RATE_LIMITED
  | SERVICE_UNAVAILABLE
  | QUEUE_FULL
  | RETRY_SCHEDULED
  | QUEUE_ERROR
deriving DecidableEq

/-- A status snapshot stored under `status:<separationId>`. The free-text
`message` field and the `updatedAt` timestamp, which no property refers to,
are omitted; the structured payload fields are kept. -/
structure StatusRecord where
  status : JStatus
  userId : Option String := none
  priority : Option Priority := none
  queuePosition : Option Nat := none
  estimatedWaitMinutes : Option Int := none
  currentQueueSize : Option Nat := none
  maxQueueSize : Option Nat := none
  retryCount : Option Nat := none
  retryInMinutes : Option Int := none
  lastError : Option String := none
  error : Option String := none
  stage : Option String := none
  runpodJobId : Option String := none
  progress : Option Int := none
  vocalUrl : Option String := none
  instrumentalUrl : Option String := none
deriving DecidableEq

/-- The per-user hash `user:<userId>`: `concurrent`, `hourly`, `lastHourReset`.
Missing fields read as `0` (`parseInt(userData.x || '0')`). -/
structure UserData where
  concurrent : Int := 0
  hourly : Int := 0
  lastHourReset : Int := 0
deriving DecidableEq

/-- The `metrics` record of the service. -/
structure Metrics where
  totalProcessed : Nat := 0
  totalFailed : Nat := 0
  avgProcessingTime : ℚ := 120
  queueFullRejections : Nat := 0
  runpodRateLimitHits : Nat := 0
  circuitBreakerTrips : Nat := 0
  peakConcurrency : Nat := 0

/-- Circuit breaker state. -/
inductive CBState where
  | CLOSED
  | OPEN
  | HALF_OPEN
deriving DecidableEq

/-- An error thrown by the RunPod submission path: its `message`, optional
`code` (`ECONNRESET` etc.) and optional `response.status`. -/
structure JsError where
  message : String
  code : Option String := none
  responseStatus : Option Int := none
deriving DecidableEq

/-- Result of `runpodService.processAsynchronously`: either a response with a
truthy `id`, or a thrown error.  A response without an `id` surfaces as the
thrown `Error('Failed to get valid response from RunPod')`, i.e. a `failure`
with no `code` and no `response`. -/
inductive RunpodOutcome where
  | success (id : String)
  | failure (e : JsError)
deriving DecidableEq

/-- Result of `runpodService.checkStatus` as consumed by the monitor. -/
structure RunpodStatus where
  status : String
  error : Option String := none
  vocalUrl : Option String := none
  instrumentalUrl : Option String := none
deriving DecidableEq

/-- A single poll of `checkStatus` from `monitorRunningJobs`: either a status
response or a thrown error. -/
inductive PollOutcome where
  | ok (rs : RunpodStatus)
  | err
deriving DecidableEq

/-- The full scheduler state: configuration, the three Redis lists, the
in-memory processing map, the rate-limiter timestamp list, the circuit
breaker, the per-user hashes, the `runpod_failures` counter, the status store
and the metrics. -/
structure QState where
  cfg : Config
  queueHigh : List Job := []
  queueNormal : List Job := []
  queueRetry : List Job := []
  processing : List ProcJob := []
  runpodRequestTimes : List Int := []
  circuitBreakerState : CBState := CBState.CLOSED
  users : String → UserData
  runpodFailures : Int := 0
  statuses : String → Option StatusRecord
  metrics : Metrics := {}

/-- The state right after the constructor runs. -/
def initState (cfg : Config) : QState :=
  { cfg := cfg
    users := fun _ => {}
    statuses := fun _ => none }

/-- The Redis key suffix used for `status:<separationId>` writes when the id
may be `undefined` (JavaScript stringifies `undefined` inside the key). -/
def keyOf (sid : Option String) : String :=
  match sid with
  | some s => s
  | none => "undefined"

/-- `updateJobStatus`: upsert of the status snapshot for a job id. -/
def updateJobStatus (st : QState) (sid : Option String) (rec : StatusRecord) : QState :=
  { st with statuses := fun k => if k = keyOf sid then some rec else st.statuses k }

/-- Point update of the per-user hash. -/
def updateUser (users : String → UserData) (uid : String) (f : UserData → UserData) :
    String → UserData :=
  fun u => if u = uid then f (users u) else users u

/-- `checkUserLimits`: concurrent cap 2, hourly cap 5, lazy hourly-window
reset when `lastHourReset < now - 3600000`.  Returns the boolean verdict and
the (possibly reset) user hash state. -/
def checkUserLimits (users : String → UserData) (userId : String) (now : Int) :
    Bool × (String → UserData) :=
  let ud := users userId
  if ud.concurrent ≥ 2 then (false, users)
  else
    let oneHourAgo := now - 3600000
    if ud.lastHourReset < oneHourAgo then
      (true, updateUser users userId (fun u => { u with hourly := 0, lastHourReset := now }))
    else if ud.hourly ≥ 5 then (false, users)
    else (true, users)

/-- `updateUserLimits`: `hincrby concurrent 1` and `hincrby hourly 1`.
(The two-hour TTL on the hash is not modelled.) -/
def updateUserLimits (users : String → UserData) (userId : String) : String → UserData :=
  updateUser users userId (fun u => { u with concurrent := u.concurrent + 1, hourly := u.hourly + 1 })

/-- `decrementUserConcurrent`: decrement `concurrent` if the user id is truthy. -/
def decrementUserConcurrent (users : String → UserData) (userId : Option String) :
    String → UserData :=
  if jsTruthyStr userId then
    updateUser users (jsOrStr userId ("")) (fun u => { u with concurrent := u.concurrent - 1 })
  else users

/-- `getTotalQueueSize`: sum of the three list lengths. -/
def getTotalQueueSize (st : QState) : Nat :=
  st.queueHigh.length + st.queueNormal.length + st.queueRetry.length

/-- `estimateProcessingTime`: ETA bucket (seconds) by file size. -/
def estimateProcessingTime (jobData : Job) : Int :=
  let fileSize := jsOrInt jobData.fileSize 0
  if fileSize < 10 * 1024 * 1024 then 120
  else if fileSize < 50 * 1024 * 1024 then 240
  else if fileSize < 200 * 1024 * 1024 then 480
  else 720

/-- `getTimeoutForJob`: submission timeout bucket (ms) by file size. -/
def getTimeoutForJob (jobData : Job) : Int :=
  let fileSize := jsOrInt jobData.fileSize 0
  if fileSize < 10 * 1024 * 1024 then 300000
  else if fileSize < 50 * 1024 * 1024 then 600000
  else if fileSize < 200 * 1024 * 1024 then 1200000
  else 1800000

/-- `calculateEstimatedWait`: queue position divided by the clamped number of
free slots of the priority class, times the rolling average processing time. -/
def calculateEstimatedWait (st : QState) (queuePosition : Nat) (priority : Priority) : ℚ :=
  let avgTime := st.metrics.avgProcessingTime
  let concurrentSlots : Int :=
    if priority = Priority.HIGH then st.cfg.PRIORITY_FILE_LIMIT
    else st.cfg.MAX_CONCURRENT_JOBS - st.cfg.PRIORITY_FILE_LIMIT
  let currentProcessing : Int :=
    ((st.processing.filter (fun p => decide (p.job.priority = some priority))).length : Int)
  let availableSlots : Int := max 1 (concurrentSlots - currentProcessing)
  ((jsCeilDivQ (queuePosition : Int) availableSlots : Int) : ℚ) * avgTime

/-- `canProcessMoreJobs`: global concurrency ceiling, plus the reserved
sub-limit for HIGH-priority jobs. -/
def canProcessMoreJobs (st : QState) (priority : Priority) : Bool :=
  let totalProcessing : Int := (st.processing.length : Int)
  if totalProcessing ≥ st.cfg.MAX_CONCURRENT_JOBS then false
  else if priority = Priority.HIGH then
    decide
      (((st.processing.filter (fun p => decide (p.job.priority = some Priority.HIGH))).length : Int)
        < st.cfg.PRIORITY_FILE_LIMIT)
  else true

/-- Lazy pruning of the rate-limiter window: keep timestamps strictly newer
than one minute ago. -/
def pruneTimes (times : List Int) (now : Int) : List Int :=
  times.filter (fun t => decide (now - 60000 < t))

/-- `canMakeRunpodRequest`: prune the window, then compare against the rate
limit.  Returns the verdict together with the pruned list (the method mutates
`this.runpodRequestTimes`). -/
def canMakeRunpodRequest (times : List Int) (now : Int) (rateLimit : Nat) :
    Bool × List Int :=
  let ts := pruneTimes times now
  (decide (ts.length < rateLimit), ts)

/-- `handleRunpodError`: count service-level errors (5xx, `ECONNRESET`,
`ETIMEDOUT`) in `runpod_failures`; at 5 the breaker trips to OPEN.  The
one-minute expiry of the counter and the 5-minute timer to HALF_OPEN are
modelled as separate steps of the transition system. -/
def handleRunpodError (st : QState) (e : JsError) : QState :=
  let isServiceError :=
    (match e.responseStatus with
     | some n => decide (n ≥ 500)
     | none => false)
    || decide (e.code = some ("ECONNRESET")) || decide (e.code = some ("ETIMEDOUT"))
  if isServiceError then
    let failures := st.runpodFailures + 1
    let st1 := { st with runpodFailures := failures }
    if failures ≥ 5 then
      { st1 with
        circuitBreakerState := CBState.OPEN
        metrics := { st1.metrics with circuitBreakerTrips := st1.metrics.circuitBreakerTrips + 1 } }
    else st1
  else st

/-- The error strings `shouldRetryJob` treats as temporary. -/
def retryableErrors : List String := ["ECONNRESET", "ETIMEDOUT", "ENOTFOUND"]

/-- `shouldRetryJob`: retry while `retryCount < 3` and the error is a
network-class message or a 5xx response. -/
def shouldRetryJob (jobData : Job) (e : JsError) : Bool :=
  let retryCount := jsOrNat jobData.retryCount 0
  if retryCount ≥ 3 then false
  else
    retryableErrors.any (fun err => jsIncludes e.message err)
      || (match e.responseStatus with
          | some n => decide (n ≥ 500)
          | none => false)

/-- `addJobToRetryQueue`: exponential backoff `60000 * 2^(retryCount - 1)`
for the post-increment count, stamp `retryAt`/`lastError`, push onto the
retry list, write a `RETRY_SCHEDULED` status. -/
def addJobToRetryQueue (st : QState) (now : Int) (jobData : Job) (errorMessage : String) :
    QState :=
  let retryCount := jsOrNat jobData.retryCount 0 + 1
  let retryDelay : Int := 60000 * 2 ^ (retryCount - 1)
  let retryJobData : Job :=
    { jobData with
      retryCount := some retryCount
      lastError := some errorMessage
      retryAt := some (now + retryDelay) }
  let st1 := { st with queueRetry := retryJobData :: st.queueRetry }
  updateJobStatus st1 jobData.separationId
    { status := JStatus.RETRY_SCHEDULED
      retryCount := some retryCount
      retryInMinutes := some (jsCeilDivQ retryDelay 60000)
      lastError := some errorMessage }

/-- Does a processing-map entry carry the given `separationId` key? -/
def procMatches (k : Option String) (p : ProcJob) : Bool :=
  decide (p.job.separationId = k)

/-- `processingJobs.get`. -/
def lookupProc (l : List ProcJob) (k : Option String) : Option ProcJob :=
  l.find? (procMatches k)

/-- `processingJobs.set`: replace the entry with the key if present,
otherwise append (JavaScript `Map` insertion order). -/
def procSet (l : List ProcJob) (p : ProcJob) : List ProcJob :=
  if l.any (procMatches p.job.separationId) then
    l.map (fun q => if procMatches p.job.separationId q then p else q)
  else l ++ [p]

/-- `processingJobs.delete`. -/
def procDelete (l : List ProcJob) (k : Option String) : List ProcJob :=
  l.filter (fun p => !(procMatches k p))

/-- `startJobProcessing`: put the job in the processing map, write the first
`PROCESSING` status, record the rate-limiter timestamp, then submit to
RunPod.  `outcome` is the result of the remote call.  On failure: report to
the circuit breaker, drop the job from the processing map, and either
schedule a retry or mark it `FAILED`.  (The Mongo `Separation` update on
success is an external collaborator and is not part of the scheduler state.) -/
def startJobProcessing (st : QState) (now : Int) (jobData : Job) (outcome : RunpodOutcome) :
    QState :=
  let sid := jobData.separationId
  let st1 := { st with processing := procSet st.processing { job := jobData, startedAt := now } }
  let st2 :=
    { st1 with
      metrics :=
        { st1.metrics with
          peakConcurrency := max st1.metrics.peakConcurrency st1.processing.length } }
  let st3 := updateJobStatus st2 sid { status := JStatus.PROCESSING, progress := some 10 }
  let st4 := { st3 with runpodRequestTimes := st3.runpodRequestTimes ++ [now] }
  match outcome with
  | RunpodOutcome.success rid =>
      let st5 :=
        { st4 with
          processing :=
            st4.processing.map (fun p =>
              if procMatches sid p then
                { p with runpodJobId := some rid, runpodSubmittedAt := some now }
              else p) }
      let st6 := updateJobStatus st5 sid
        { status := JStatus.PROCESSING, runpodJobId := some rid, progress := some 25 }
      if st6.circuitBreakerState = CBState.HALF_OPEN then
        { st6 with circuitBreakerState := CBState.CLOSED }
      else st6
  | RunpodOutcome.failure e =>
      let st5 := handleRunpodError st4 e
      let st6 := { st5 with processing := procDelete st5.processing sid }
      if shouldRetryJob jobData e then
        addJobToRetryQueue st6 now jobData e.message
      else
        updateJobStatus st6 sid
          { status := JStatus.FAILED, error := some e.message, stage := some ("runpod_submission") }

/-- `rpop` on a Redis list modelled with `lpush` = cons: take the last element. -/
def rpopList {α : Type} (l : List α) : Option (α × List α) :=
  match l.getLast? with
  | none => none
  | some a => some (a, l.dropLast)

/-- `addJob`: validation, user quota, circuit breaker, capacity; then
priority routing, enqueue, quota increment and the `QUEUED` status.  Returns
the boolean result together with the new state.  (The `setImmediate`
dispatch hint at the end only schedules a tick, which the transition system
models as its own step.) -/
def addJob (st : QState) (now : Int) (jobData : Job) : Bool × QState :=
  if jsTruthyStr jobData.separationId then
    let userId := jsOrStr jobData.userId ("unknown")
    let ulr := checkUserLimits st.users userId now
    let st1 := { st with users := ulr.2 }
    if ulr.1 then
      if st1.circuitBreakerState = CBState.OPEN then
        (false, updateJobStatus st1 jobData.separationId
          { status := JStatus.SERVICE_UNAVAILABLE })
      else
        let currentQueueSize := getTotalQueueSize st1
        if currentQueueSize ≥ st1.cfg.MAX_QUEUE_SIZE then
          let st2 :=
            { st1 with
              metrics :=
                { st1.metrics with
                  queueFullRejections := st1.metrics.queueFullRejections + 1 } }
          (false, updateJobStatus st2 jobData.separationId
            { status := JStatus.QUEUE_FULL
              currentQueueSize := some currentQueueSize
              maxQueueSize := some st2.cfg.MAX_QUEUE_SIZE })
        else
          let isFileUpload :=
            jobData.storageType = some ("file") ∨ jobData.storageType = some ("local")
          let priority := if isFileUpload then Priority.HIGH else Priority.NORMAL
          let enhancedJobData : Job :=
            { jobData with
              priority := some priority
              addedAt := some now
              retryCount := some 0
              userId := some userId
              estimatedTime := some (estimateProcessingTime jobData) }
          let st2 :=
            if isFileUpload then { st1 with queueHigh := enhancedJobData :: st1.queueHigh }
            else { st1 with queueNormal := enhancedJobData :: st1.queueNormal }
          let st3 := { st2 with users := updateUserLimits st2.users userId }
          let queuePosition :=
            if isFileUpload then st3.queueHigh.length else st3.queueNormal.length
          let estimatedWait := calculateEstimatedWait st3 queuePosition priority
          let st4 := updateJobStatus st3 jobData.separationId
            { status := JStatus.QUEUED
              priority := some priority
              queuePosition := some queuePosition
              estimatedWaitMinutes := some (jsCeil (estimatedWait / 60))
              userId := some userId }
          (true, st4)
    else
      (false, updateJobStatus st1 jobData.separationId
        { status := JStatus.RATE_LIMITED, userId := some userId })
  else
    -- `throw new Error('Invalid job data: separationId is required')`, caught by
    -- the surrounding try/catch which writes a QUEUE_ERROR status.
    (false, updateJobStatus st jobData.separationId
      { status := JStatus.QUEUE_ERROR
        error := some ("Invalid job data: separationId is required") })

/-- `processQueue`: one dispatcher tick for one priority class.  Aborts on
the concurrency budget, then on the rate limiter (whose call prunes the
window as a side effect), then pops at most one job and starts it. -/
def processQueue (st : QState) (now : Int) (priority : Priority) (outcome : RunpodOutcome) :
    QState :=
  if canProcessMoreJobs st priority then
    let rl := canMakeRunpodRequest st.runpodRequestTimes now st.cfg.RUNPOD_RATE_LIMIT
    let st1 := { st with runpodRequestTimes := rl.2 }
    if rl.1 then
      match rpopList (if priority = Priority.HIGH then st1.queueHigh else st1.queueNormal) with
      | none => st1
      | some (job, rest) =>
          let st2 :=
            if priority = Priority.HIGH then { st1 with queueHigh := rest }
            else { st1 with queueNormal := rest }
          startJobProcessing st2 now job outcome
    else
      { st1 with
        metrics :=
          { st1.metrics with runpodRateLimitHits := st1.metrics.runpodRateLimitHits + 1 } }
  else st

/-- `handleJobCompletion`: metrics (including the rolling-average update),
`COMPLETE` status, removal from the processing map, quota decrement. -/
def handleJobCompletion (st : QState) (now : Int) (sid : Option String) (rs : RunpodStatus) :
    QState :=
  match lookupProc st.processing sid with
  | none => st
  | some pj =>
      let processingTime : Int := now - pj.startedAt
      let st1 :=
        { st with
          metrics :=
            { st.metrics with
              totalProcessed := st.metrics.totalProcessed + 1
              avgProcessingTime :=
                (st.metrics.avgProcessingTime + (processingTime : ℚ) / 1000) / 2 } }
      let st2 := updateJobStatus st1 sid
        { status := JStatus.COMPLETE
          vocalUrl := rs.vocalUrl
          instrumentalUrl := rs.instrumentalUrl
          progress := some 100 }
      let st3 := { st2 with processing := procDelete st2.processing sid }
      { st3 with users := decrementUserConcurrent st3.users pj.job.userId }

/-- `handleJobFailure`: failure metrics, `FAILED` status, removal from the
processing map, quota decrement (only when the entry was present). -/
def handleJobFailure (st : QState) (sid : Option String) (rs : RunpodStatus) : QState :=
  let pj? := lookupProc st.processing sid
  let st1 := { st with metrics := { st.metrics with totalFailed := st.metrics.totalFailed + 1 } }
  let st2 := updateJobStatus st1 sid
    { status := JStatus.FAILED
      error := some (jsOrStr rs.error ("Processing failed"))
      stage := some ("runpod_processing") }
  let st3 := { st2 with processing := procDelete st2.processing sid }
  match pj? with
  | some pj => { st3 with users := decrementUserConcurrent st3.users pj.job.userId }
  | none => st3

/-- `handleJobTimeout`: `TIMEOUT` status, removal from the processing map,
quota decrement (only when the entry was present). -/
def handleJobTimeout (st : QState) (sid : Option String) : QState :=
  let pj? := lookupProc st.processing sid
  let st1 := updateJobStatus st sid
    { status := JStatus.TIMEOUT, error := some ("Job timed out after 45 minutes") }
  let st2 := { st1 with processing := procDelete st1.processing sid }
  match pj? with
  | some pj => { st2 with users := decrementUserConcurrent st2.users pj.job.userId }
  | none => st2

/-- `updateJobProgress`: coarse progress estimate from the remote status. -/
def updateJobProgress (st : QState) (sid : Option String) (rs : RunpodStatus) : QState :=
  let progress : Int :=
    if rs.status = "IN_QUEUE" then 30
    else if rs.status = "IN_PROGRESS" then 70
    else 50
  updateJobStatus st sid { status := JStatus.PROCESSING, progress := some progress }

/-- The body of the `monitorRunningJobs` loop for one processing-map entry:
skip entries without a `runpodJobId`; dispatch on the polled status; on a
poll error, time the job out only past the 45-minute ceiling. -/
def monitorJobStep (st : QState) (now : Int) (pj : ProcJob) (poll : PollOutcome) : QState :=
  if jsTruthyStr pj.runpodJobId then
    match poll with
    | PollOutcome.ok rs =>
        if rs.status = "COMPLETED" then handleJobCompletion st now pj.job.separationId rs
        else if rs.status = "FAILED" then handleJobFailure st pj.job.separationId rs
        else updateJobProgress st pj.job.separationId rs
    | PollOutcome.err =>
        let jobAge := now - pj.startedAt
        if jobAge > 45 * 60 * 1000 then handleJobTimeout st pj.job.separationId
        else st
  else st

/-- `processRetryQueue`: pop the oldest retry entry; if its `retryAt` has
passed, clear the retry bookkeeping and re-admit it through `addJob`,
otherwise push it back.  (`new Date(undefined)` is an invalid date, so a
missing `retryAt` never satisfies the comparison.) -/
def processRetryQueue (st : QState) (now : Int) : QState :=
  match rpopList st.queueRetry with
  | none => st
  | some (job, rest) =>
      let st1 := { st with queueRetry := rest }
      match job.retryAt with
      | some retryTime =>
          if now ≥ retryTime then
            let job1 := { job with retryAt := none, lastError := none }
            (addJob st1 now job1).2
          else { st1 with queueRetry := job :: st1.queueRetry }
      | none => { st1 with queueRetry := job :: st1.queueRetry }

/-- `resetRateLimits` (the once-a-minute interval): prune the rate window. -/
def resetRateLimits (st : QState) (now : Int) : QState :=
  { st with runpodRequestTimes := pruneTimes st.runpodRequestTimes now }

/-- The `setTimeout` callback scheduled when the breaker trips: five minutes
later the state is set to HALF_OPEN unconditionally. -/
def breakerCooldown (st : QState) : QState :=
  { st with circuitBreakerState := CBState.HALF_OPEN }

/-- The one-minute Redis expiry of the `runpod_failures` counter. -/
def failuresExpire (st : QState) : QState :=
  { st with runpodFailures := 0 }

/-- One asynchronous event of the scheduler: a timer tick of one of the
periodic tasks, an admission, time passing, or one of the delayed effects
(breaker cooldown, failure-counter expiry). -/
inductive Step : QState × Int → QState × Int → Prop where
  | advance (st : QState) (now now2 : Int) (h : now ≤ now2) : Step (st, now) (st, now2)
  | admission (st : QState) (now : Int) (jobData : Job) :
      Step (st, now) ((addJob st now jobData).2, now)
  | dispatch (st : QState) (now : Int) (priority : Priority) (outcome : RunpodOutcome) :
      Step (st, now) (processQueue st now priority outcome, now)
  | monitor (st : QState) (now : Int) (pj : ProcJob) (poll : PollOutcome)
      (h : pj ∈ st.processing) :
      Step (st, now) (monitorJobStep st now pj poll, now)
  | retryTick (st : QState) (now : Int) :
      Step (st, now) (processRetryQueue st now, now)
  | rateReset (st : QState) (now : Int) :
      Step (st, now) (resetRateLimits st now, now)
  | cooldown (st : QState) (now : Int) :
      Step (st, now) (breakerCooldown st, now)
  | expire (st : QState) (now : Int) :
      Step (st, now) (failuresExpire st, now)

/-- States reachable from the freshly constructed service. -/
inductive Reachable : QState × Int → Prop where
  | init (cfg : Config) (now0 : Int) : Reachable (initState cfg, now0)
  | step {a b : QState × Int} (ha : Reachable a) (hab : Step a b) : Reachable b

/-! ### The claim's wording of the user-quota rule (for comparison with the code)

The specification states: reject with `RATE_LIMITED` if `concurrent ≥ 2`, or
if the hourly window has not elapsed and `hourlyCount ≥ 5`, where the window
counts as elapsed when `now − windowStart` is **at least** one hour. -/

/-- Modelled from the spec: the claimed rejection predicate of the user-quota
check, with the claimed "at least 1 hour" window-elapse condition.  This
definition follows the claim's words, not the code, and exists to be compared
with `checkUserLimits`. -/
def rateLimitedPerClaim (ud : UserData) (now : Int) : Bool :=
  decide (ud.concurrent ≥ 2)
    || (!(decide (now - ud.lastHourReset ≥ 3600000)) && decide (ud.hourly ≥ 5))

/-! ### Concrete states used by counterexamples and witnesses -/

/-- The default configuration (all environment variables unset). -/
def cfgD : Config := {}

/-- The freshly constructed scheduler under the default configuration. -/
def initS : QState := initState cfgD

/-- A URL-based (NORMAL-priority) submission for user `u` with id `i`. -/
def jN (i u : String) : Job :=
  { separationId := some i
    userId := some u
    storageType := some ("url")
    publicUrl := some ("http://example.com/a.mp3") }

/-- A connection-reset submission error (service-level and retryable). -/
def errR : JsError :=
  { message := "connect ECONNRESET", code := some ("ECONNRESET") }

/-- Six admissions by six distinct users at t = 1000, then five dispatcher
ticks whose RunPod submissions all fail with `ECONNRESET`: after the fifth
failure the breaker is OPEN while job `s6` is still queued. -/
def c1S1 : QState := (addJob initS 1000 (jN ("s1") ("u1"))).2

def c1S2 : QState := (addJob c1S1 1000 (jN ("s2") ("u2"))).2

def c1S3 : QState := (addJob c1S2 1000 (jN ("s3") ("u3"))).2

def c1S4 : QState := (addJob c1S3 1000 (jN ("s4") ("u4"))).2

def c1S5 : QState := (addJob c1S4 1000 (jN ("s5") ("u5"))).2

def c1S6 : QState := (addJob c1S5 1000 (jN ("s6") ("u6"))).2

def c1D1 : QState := processQueue c1S6 1000 Priority.NORMAL (RunpodOutcome.failure errR)

def c1D2 : QState := processQueue c1D1 1000 Priority.NORMAL (RunpodOutcome.failure errR)

def c1D3 : QState := processQueue c1D2 1000 Priority.NORMAL (RunpodOutcome.failure errR)

def c1D4 : QState := processQueue c1D3 1000 Priority.NORMAL (RunpodOutcome.failure errR)

def c1D5 : QState := processQueue c1D4 1000 Priority.NORMAL (RunpodOutcome.failure errR)

/-- One admission at t = 1000, a failed dispatch at t = 2000 (which schedules
a retry with `retryCount = 1` and `retryAt = 62000`), and the retry tick at
t = 70000 that re-admits the job. -/
def c2S1 : QState := (addJob initS 1000 (jN ("s1") ("u1"))).2

def c2S2 : QState := processQueue c2S1 2000 Priority.NORMAL (RunpodOutcome.failure errR)

def c2S3 : QState := processRetryQueue c2S2 70000

/-- A configuration with queue capacity 2, to exercise the `QUEUE_FULL` path. -/
def cfg2 : Config := { MAX_QUEUE_SIZE := 2 }

/-- Two admissions fill the capacity-2 queue at t = 0; then user `u1`, whose
hourly window started at t = 0, submits again at t = 4000000 (more than an
hour later) and is rejected with `QUEUE_FULL`. -/
def c5S1 : QState := (addJob (initState cfg2) 0 (jN ("t1") ("u1"))).2

def c5S2 : QState := (addJob c5S1 0 (jN ("t2") ("u2"))).2

def c5R : Bool × QState := addJob c5S2 4000000 (jN ("t3") ("u1"))

/-- A processing-map entry with a remote id, owned by user `u9`, started at
t = 0; used to exercise the monitor's poll-error path. -/
def pj9 : ProcJob :=
  { job := { separationId := some ("s9"), userId := some ("u9") }
    startedAt := 0
    runpodJobId := some ("rp9") }

/-- A scheduler state whose processing set holds exactly `pj9`, with the
owner's `concurrent` counter at 1. -/
def st9 : QState :=
  { initS with processing := [pj9], users := fun _ => { concurrent := 1 } }

/-- A state in which every user already has 2 concurrent jobs. -/
def stConc2 : QState :=
  { initS with users := fun _ => { concurrent := 2 } }

/-- A state in which every user has 3 admissions in a window that started at
t = 0. -/
def stHourly3 : QState :=
  { initS with users := fun _ => { hourly := 3 } }

/-- A state whose circuit breaker is OPEN and nothing else is set. -/
def stOpen : QState :=
  { initS with circuitBreakerState := CBState.OPEN }

/-- A submission with a `separationId` but no payload reference at all. -/
def jNoPayload : Job :=
  { separationId := some ("s8"), userId := some ("u8"), storageType := some ("url") }

/-! ## Helper lemmas -/

theorem pruneTimes_pruneTimes (l : List Int) {now now2 : Int} (h : now ≤ now2) :
    pruneTimes (pruneTimes l now) now2 = pruneTimes l now2 := by
  unfold pruneTimes
  rw [List.filter_filter]
  apply List.filter_congr
  intro x _
  by_cases hx : now2 - 60000 < x
  · have hx2 : now - 60000 < x := by omega
    simp [hx, hx2]
  · simp [hx]

theorem pruneTimes_idem (l : List Int) (now : Int) :
    pruneTimes (pruneTimes l now) now = pruneTimes l now :=
  pruneTimes_pruneTimes l (le_refl now)

theorem pruneTimes_length_le (l : List Int) {now now2 : Int} (h : now ≤ now2) :
    (pruneTimes l now2).length ≤ (pruneTimes l now).length := by
  rw [← pruneTimes_pruneTimes l h]
  exact List.length_filter_le _ _

theorem pruneTimes_append_now (l : List Int) (now : Int) :
    pruneTimes (l ++ [now]) now = pruneTimes l now ++ [now] := by
  unfold pruneTimes
  rw [List.filter_append]
  simp [show now - 60000 < now by omega]

theorem lookupProc_procDelete (l : List ProcJob) (k : Option String) :
    lookupProc (procDelete l k) k = none := by
  unfold lookupProc procDelete
  rw [List.find?_eq_none]
  intro x hx
  rw [List.mem_filter] at hx
  simpa using hx.2

theorem handleRunpodError_runpodRequestTimes (st : QState) (e : JsError) :
    (handleRunpodError st e).runpodRequestTimes = st.runpodRequestTimes := by
  simp only [handleRunpodError]
  repeat' split
  all_goals rfl

theorem handleRunpodError_cfg (st : QState) (e : JsError) :
    (handleRunpodError st e).cfg = st.cfg := by
  simp only [handleRunpodError]
  repeat' split
  all_goals rfl

theorem handleRunpodError_queueRetry (st : QState) (e : JsError) :
    (handleRunpodError st e).queueRetry = st.queueRetry := by
  simp only [handleRunpodError]
  repeat' split
  all_goals rfl

theorem handleRunpodError_users (st : QState) (e : JsError) :
    (handleRunpodError st e).users = st.users := by
  simp only [handleRunpodError]
  repeat' split
  all_goals rfl

theorem handleRunpodError_processing (st : QState) (e : JsError) :
    (handleRunpodError st e).processing = st.processing := by
  simp only [handleRunpodError]
  repeat' split
  all_goals rfl

theorem startJobProcessing_runpodRequestTimes (st : QState) (now : Int) (jobData : Job)
    (o : RunpodOutcome) :
    (startJobProcessing st now jobData o).runpodRequestTimes =
      st.runpodRequestTimes ++ [now] := by
  cases o with
  | success rid =>
      simp only [startJobProcessing]
      split <;> rfl
  | failure e =>
      simp only [startJobProcessing]
      split
      · exact handleRunpodError_runpodRequestTimes _ _
      · exact handleRunpodError_runpodRequestTimes _ _

theorem startJobProcessing_cfg (st : QState) (now : Int) (jobData : Job) (o : RunpodOutcome) :
    (startJobProcessing st now jobData o).cfg = st.cfg := by
  cases o with
  | success rid =>
      simp only [startJobProcessing]
      split <;> rfl
  | failure e =>
      simp only [startJobProcessing]
      split
      · exact handleRunpodError_cfg _ _
      · exact handleRunpodError_cfg _ _

theorem addJob_runpodRequestTimes (st : QState) (now : Int) (jobData : Job) :
    ((addJob st now jobData).2).runpodRequestTimes = st.runpodRequestTimes := by
  simp only [addJob]
  repeat' split
  all_goals rfl

theorem addJob_cfg (st : QState) (now : Int) (jobData : Job) :
    ((addJob st now jobData).2).cfg = st.cfg := by
  simp only [addJob]
  repeat' split
  all_goals rfl

theorem processQueue_cfg (st : QState) (now : Int) (priority : Priority)
    (o : RunpodOutcome) :
    (processQueue st now priority o).cfg = st.cfg := by
  simp only [processQueue]
  repeat' split
  all_goals first
    | rfl
    | exact startJobProcessing_cfg _ _ _ _

theorem processQueue_runpodRequestTimes (st : QState) (now : Int) (priority : Priority)
    (o : RunpodOutcome) :
    (processQueue st now priority o).runpodRequestTimes = st.runpodRequestTimes
    ∨ (processQueue st now priority o).runpodRequestTimes =
        pruneTimes st.runpodRequestTimes now
    ∨ ((processQueue st now priority o).runpodRequestTimes =
          pruneTimes st.runpodRequestTimes now ++ [now]
        ∧ (pruneTimes st.runpodRequestTimes now).length < st.cfg.RUNPOD_RATE_LIMIT) := by
  simp only [processQueue]
  split
  · split
    · split
      · exact Or.inr (Or.inl rfl)
      · refine Or.inr (Or.inr ⟨?_, ?_⟩)
        · rw [startJobProcessing_runpodRequestTimes]
          split <;> rfl
        · rename_i hcan a b c d
          simpa [canMakeRunpodRequest] using hcan
    · exact Or.inr (Or.inl rfl)
  · exact Or.inl rfl

theorem monitorJobStep_runpodRequestTimes (st : QState) (now : Int) (pj : ProcJob)
    (poll : PollOutcome) :
    (monitorJobStep st now pj poll).runpodRequestTimes = st.runpodRequestTimes := by
  simp only [monitorJobStep, handleJobCompletion, handleJobFailure, handleJobTimeout,
    updateJobProgress]
  repeat' split
  all_goals rfl

theorem monitorJobStep_cfg (st : QState) (now : Int) (pj : ProcJob) (poll : PollOutcome) :
    (monitorJobStep st now pj poll).cfg = st.cfg := by
  simp only [monitorJobStep, handleJobCompletion, handleJobFailure, handleJobTimeout,
    updateJobProgress]
  repeat' split
  all_goals rfl

theorem processRetryQueue_runpodRequestTimes (st : QState) (now : Int) :
    (processRetryQueue st now).runpodRequestTimes = st.runpodRequestTimes := by
  simp only [processRetryQueue]
  repeat' split
  all_goals first
    | rfl
    | exact addJob_runpodRequestTimes _ _ _

theorem processRetryQueue_cfg (st : QState) (now : Int) :
    (processRetryQueue st now).cfg = st.cfg := by
  simp only [processRetryQueue]
  repeat' split
  all_goals first
    | rfl
    | exact addJob_cfg _ _ _

theorem window_bound_aux (p : QState × Int) (h : Reachable p) :
    (pruneTimes p.1.runpodRequestTimes p.2).length ≤ p.1.cfg.RUNPOD_RATE_LIMIT := by
  induction h with
  | init cfg now0 => simp [initState, pruneTimes]
  | step ha hab ih =>
      cases hab with
      | advance st now now2 hle =>
          exact le_trans (pruneTimes_length_le _ hle) ih
      | admission st now jobData =>
          rw [addJob_cfg, addJob_runpodRequestTimes]
          exact ih
      | dispatch st now priority outcome =>
          rw [processQueue_cfg]
          rcases processQueue_runpodRequestTimes st now priority outcome with h1 | h1 | ⟨h1, h2⟩
          · rw [h1]; exact ih
          · rw [h1, pruneTimes_idem]; exact ih
          · rw [h1, pruneTimes_append_now, pruneTimes_idem]
            rw [List.length_append, List.length_singleton]
            omega
      | monitor st now pj poll hmem =>
          rw [monitorJobStep_cfg, monitorJobStep_runpodRequestTimes]
          exact ih
      | retryTick st now =>
          rw [processRetryQueue_cfg, processRetryQueue_runpodRequestTimes]
          exact ih
      | rateReset st now =>
          simp only [resetRateLimits]
          rw [pruneTimes_idem]
          exact ih
      | cooldown st now => exact ih
      | expire st now => exact ih

theorem jsCeilDivQ_base_mul_pow (r : Nat) :
    jsCeilDivQ (60000 * 2 ^ r) 60000 = 2 ^ r := by
  unfold jsCeilDivQ
  have h : ((60000 * 2 ^ r : Int) : ℚ) / ((60000 : Int) : ℚ) = ((2 ^ r : Int) : ℚ) := by
    push_cast
    exact mul_div_cancel_left₀ _ (by norm_num)
  rw [h, Int.ceil_intCast]

theorem ceil_div_max_nonneg (qp : Nat) (A : Int) :
    (0 : ℚ) ≤ ((jsCeilDivQ (qp : Int) (max 1 A) : Int) : ℚ) := by
  unfold jsCeilDivQ
  have hb : (0 : ℚ) ≤ ((max 1 A : Int) : ℚ) := by
    have h1 : (0 : Int) ≤ max 1 A := le_trans zero_le_one (le_max_left 1 A)
    exact_mod_cast h1
  have hx : (0 : ℚ) ≤ ((qp : Int) : ℚ) / ((max 1 A : Int) : ℚ) := by
    apply div_nonneg _ hb
    exact_mod_cast Int.natCast_nonneg qp
  exact_mod_cast Int.ceil_nonneg hx

/-! ## Claim theorems -/

/-- C6: rate-limiter invariant.  On every reachable scheduler state, at most
`RUNPOD_RATE_LIMIT` recorded dispatch timestamps lie within the trailing
60-second window: `processQueue` pops and submits only when the lazily pruned
window holds strictly fewer than the limit, and each submission records
exactly one new timestamp, so the window bound holds invariantly. -/
theorem rate_limiter_window_bound (st : QState) (now : Int)
    (h : Reachable (st, now)) :
    (pruneTimes st.runpodRequestTimes now).length ≤ st.cfg.RUNPOD_RATE_LIMIT :=
  window_bound_aux (st, now) h

/-- Witness for C6: the bound holds at the concrete reachable state obtained
by one admission and one (failing) dispatch tick. -/
theorem rate_limiter_window_bound_witness :
    (pruneTimes
        (processQueue c1S1 1000 Priority.NORMAL (RunpodOutcome.failure errR)).runpodRequestTimes
        1000).length
      ≤ (processQueue c1S1 1000 Priority.NORMAL (RunpodOutcome.failure errR)).cfg.RUNPOD_RATE_LIMIT :=
  rate_limiter_window_bound _ 1000
    (Reachable.step
      (Reachable.step (Reachable.init cfgD 1000) (Step.admission initS 1000 (jN ("s1") ("u1"))))
      (Step.dispatch c1S1 1000 Priority.NORMAL (RunpodOutcome.failure errR)))

/-- C7: for a job handed to the retry path with pre-increment retry count `r`,
the computed delay is `60000 * 2^r` ms, the job is stamped with
`retryAt = now + delay` and `retryCount = r + 1` and pushed onto the RETRY
list, the status becomes `RETRY_SCHEDULED` carrying the delay in minutes
(`2^r`), and the delay is monotonically non-decreasing in `r`. -/
theorem retry_backoff_schedule (st : QState) (now : Int) (jobData : Job)
    (errorMessage : String) (r r1 r2 : Nat)
    (hr : jsOrNat jobData.retryCount 0 = r) (h12 : r1 ≤ r2) :
    (addJobToRetryQueue st now jobData errorMessage).queueRetry
        = { jobData with
            retryCount := some (r + 1)
            lastError := some errorMessage
            retryAt := some (now + 60000 * 2 ^ r) } :: st.queueRetry
    ∧ (addJobToRetryQueue st now jobData errorMessage).statuses (keyOf jobData.separationId)
        = some { status := JStatus.RETRY_SCHEDULED
                 retryCount := some (r + 1)
                 retryInMinutes := some ((2 : Int) ^ r)
                 lastError := some errorMessage }
    ∧ jsCeilDivQ (60000 * 2 ^ r) 60000 = (2 : Int) ^ r
    ∧ (60000 * 2 ^ r1 : Int) ≤ 60000 * 2 ^ r2 := by
  refine ⟨?_, ?_, jsCeilDivQ_base_mul_pow r, ?_⟩
  · simp only [addJobToRetryQueue, updateJobStatus, hr, Nat.add_sub_cancel]
  · simp [addJobToRetryQueue, updateJobStatus, hr, Nat.add_sub_cancel,
      jsCeilDivQ_base_mul_pow]
  · have hp : (2 : Int) ^ r1 ≤ 2 ^ r2 := pow_le_pow_right₀ (by norm_num) h12
    omega

/-- Witness for C7 at a concrete job with prior retry count 2 (delay 4 min). -/
theorem retry_backoff_schedule_witness :
    (addJobToRetryQueue initS 5000 { separationId := some ("s7"), retryCount := some 2 }
        ("boom")).queueRetry
        = [{ separationId := some ("s7"), retryCount := some 3, lastError := some ("boom"),
             retryAt := some 245000 }]
    ∧ (addJobToRetryQueue initS 5000 { separationId := some ("s7"), retryCount := some 2 }
        ("boom")).statuses ("s7")
        = some { status := JStatus.RETRY_SCHEDULED, retryCount := some 3,
                 retryInMinutes := some 4, lastError := some ("boom") }
    ∧ jsCeilDivQ (60000 * 2 ^ 2) 60000 = (2 : Int) ^ 2
    ∧ (60000 * 2 ^ 0 : Int) ≤ 60000 * 2 ^ 1 :=
  retry_backoff_schedule initS 5000 { separationId := some ("s7"), retryCount := some 2 }
    ("boom") 2 0 1 (by decide) (by decide)

/-- C9: on a status-poll error, a tracked job older than 45 minutes is
force-transitioned to TIMEOUT, removed from the processing set, and its
owner's `concurrent` counter is decremented; a job at most 45 minutes old is
left in place. -/
theorem monitor_poll_error_timeout (st : QState) (now : Int) (pj : ProcJob) (u : String)
    (hlook : lookupProc st.processing pj.job.separationId = some pj)
    (hrp : jsTruthyStr pj.runpodJobId = true)
    (huser : pj.job.userId = some u)
    (hu : u ≠ "") :
    if 45 * 60 * 1000 < now - pj.startedAt then
      (monitorJobStep st now pj PollOutcome.err).statuses (keyOf pj.job.separationId)
          = some { status := JStatus.TIMEOUT, error := some ("Job timed out after 45 minutes") }
        ∧ lookupProc (monitorJobStep st now pj PollOutcome.err).processing
            pj.job.separationId = none
        ∧ ((monitorJobStep st now pj PollOutcome.err).users u).concurrent
            = (st.users u).concurrent - 1
    else monitorJobStep st now pj PollOutcome.err = st := by
  by_cases hage : (45 * 60 * 1000 : Int) < now - pj.startedAt
  · rw [if_pos hage]
    have hm : monitorJobStep st now pj PollOutcome.err
        = handleJobTimeout st pj.job.separationId := by
      simp only [monitorJobStep, hrp, eq_self_iff_true, if_true]
      exact if_pos hage
    rw [hm]
    simp only [handleJobTimeout, hlook]
    refine ⟨?_, ?_, ?_⟩
    · simp [updateJobStatus]
    · exact lookupProc_procDelete _ _
    · simp [decrementUserConcurrent, huser, jsTruthyStr, jsOrStr, hu, updateUser,
        updateJobStatus]
  · rw [if_neg hage]
    simp only [monitorJobStep, hrp, eq_self_iff_true, if_true]
    exact if_neg hage

/-- Witness for C9: the concrete tracked job `pj9` (started at t = 0, owner
`u9` with one concurrent slot) polled with an error at t = 2700001 ms. -/
theorem monitor_poll_error_timeout_witness :
    (monitorJobStep st9 2700001 pj9 PollOutcome.err).statuses ("s9")
        = some { status := JStatus.TIMEOUT, error := some ("Job timed out after 45 minutes") }
      ∧ lookupProc (monitorJobStep st9 2700001 pj9 PollOutcome.err).processing
          (some ("s9")) = none
      ∧ ((monitorJobStep st9 2700001 pj9 PollOutcome.err).users ("u9")).concurrent
          = (st9.users ("u9")).concurrent - 1 := by
  have h := monitor_poll_error_timeout st9 2700001 pj9 ("u9") (by decide) (by decide)
    (by decide) (by decide)
  rw [if_pos (show (45 * 60 * 1000 : Int) < 2700001 - pj9.startedAt by decide)] at h
  exact h

/-- C10: the estimated-wait computation clamps its divisor to at least one
free slot, so it is well defined and non-negative even when the class's
slots are exhausted or the NORMAL slot count is zero or negative. -/
theorem estimated_wait_safe (st : QState) (queuePosition : Nat) (priority : Priority)
    (h : 0 ≤ st.metrics.avgProcessingTime) :
    (1 : Int) ≤ max 1
        ((if priority = Priority.HIGH then st.cfg.PRIORITY_FILE_LIMIT
          else st.cfg.MAX_CONCURRENT_JOBS - st.cfg.PRIORITY_FILE_LIMIT)
          - ((st.processing.filter
              (fun p => decide (p.job.priority = some priority))).length : Int))
      ∧ 0 ≤ calculateEstimatedWait st queuePosition priority := by
  refine ⟨le_max_left _ _, ?_⟩
  unfold calculateEstimatedWait
  exact mul_nonneg (ceil_div_max_nonneg _ _) h

theorem checkUserLimits_rejected_snd (users : String → UserData) (uid : String) (now : Int)
    (h : (checkUserLimits users uid now).1 = false) :
    (checkUserLimits users uid now).2 = users := by
  by_cases hc : (users uid).concurrent ≥ 2
  · simp [checkUserLimits, hc]
  · by_cases hw : (users uid).lastHourReset < now - 3600000
    · exfalso
      simp [checkUserLimits, hc, hw] at h
    · by_cases hh : (users uid).hourly ≥ 5
      · simp [checkUserLimits, hc, hw, hh]
      · exfalso
        simp [checkUserLimits, hc, hw, hh] at h

theorem checkUserLimits_concurrent (users : String → UserData) (uid : String) (now : Int)
    (u2 : String) :
    ((checkUserLimits users uid now).2 u2).concurrent = (users u2).concurrent := by
  simp only [checkUserLimits]
  repeat' split
  all_goals try rfl
  simp only [updateUser]
  split <;> rfl

theorem addJobToRetryQueue_queueRetry (st : QState) (now : Int) (j : Job) (m : String) :
    (addJobToRetryQueue st now j m).queueRetry
      = { j with
          retryCount := some (jsOrNat j.retryCount 0 + 1)
          lastError := some m
          retryAt := some (now + 60000 * 2 ^ (jsOrNat j.retryCount 0 + 1 - 1)) }
        :: st.queueRetry := rfl

theorem addJobToRetryQueue_statuses_key (st : QState) (now : Int) (j : Job) (m : String) :
    (addJobToRetryQueue st now j m).statuses (keyOf j.separationId)
      = some { status := JStatus.RETRY_SCHEDULED
               retryCount := some (jsOrNat j.retryCount 0 + 1)
               retryInMinutes :=
                 some (jsCeilDivQ (60000 * 2 ^ (jsOrNat j.retryCount 0 + 1 - 1)) 60000)
               lastError := some m } := by
  simp [addJobToRetryQueue, updateJobStatus]

/-- C1 counterexample: a reachable scheduler state with the circuit breaker
OPEN and job `s6` still queued, on which a NORMAL dispatcher tick still pops
the job, submits it (recording one more rate-limiter timestamp) and places it
in the processing set: `processQueue` never consults the breaker. -/
theorem dispatch_occurs_while_breaker_open :
    Reachable (c1D5, 1000)
      ∧ c1D5.circuitBreakerState = CBState.OPEN
      ∧ c1D5.queueNormal.map (fun j => j.separationId) = [some ("s6")]
      ∧ (processQueue c1D5 1000 Priority.NORMAL (RunpodOutcome.success ("rp1"))).queueNormal = []
      ∧ (lookupProc (processQueue c1D5 1000 Priority.NORMAL
            (RunpodOutcome.success ("rp1"))).processing (some ("s6"))).isSome = true
      ∧ (processQueue c1D5 1000 Priority.NORMAL
            (RunpodOutcome.success ("rp1"))).runpodRequestTimes.length
          = c1D5.runpodRequestTimes.length + 1 := by
  refine ⟨?_, by decide, by decide, by decide, by decide, by decide⟩
  have r0 : Reachable (initS, 1000) := Reachable.init cfgD 1000
  have r1 : Reachable (c1S1, 1000) := r0.step (Step.admission initS 1000 (jN ("s1") ("u1")))
  have r2 : Reachable (c1S2, 1000) := r1.step (Step.admission c1S1 1000 (jN ("s2") ("u2")))
  have r3 : Reachable (c1S3, 1000) := r2.step (Step.admission c1S2 1000 (jN ("s3") ("u3")))
  have r4 : Reachable (c1S4, 1000) := r3.step (Step.admission c1S3 1000 (jN ("s4") ("u4")))
  have r5 : Reachable (c1S5, 1000) := r4.step (Step.admission c1S4 1000 (jN ("s5") ("u5")))
  have r6 : Reachable (c1S6, 1000) := r5.step (Step.admission c1S5 1000 (jN ("s6") ("u6")))
  have r7 : Reachable (c1D1, 1000) :=
    r6.step (Step.dispatch c1S6 1000 Priority.NORMAL (RunpodOutcome.failure errR))
  have r8 : Reachable (c1D2, 1000) :=
    r7.step (Step.dispatch c1D1 1000 Priority.NORMAL (RunpodOutcome.failure errR))
  have r9 : Reachable (c1D3, 1000) :=
    r8.step (Step.dispatch c1D2 1000 Priority.NORMAL (RunpodOutcome.failure errR))
  have r10 : Reachable (c1D4, 1000) :=
    r9.step (Step.dispatch c1D3 1000 Priority.NORMAL (RunpodOutcome.failure errR))
  exact r10.step (Step.dispatch c1D4 1000 Priority.NORMAL (RunpodOutcome.failure errR))

/-- C1 (amended): while the breaker is OPEN, `addJob` rejects every new
admission (that passes validation and the user-limit check) with a
`SERVICE_UNAVAILABLE` status: only the status record is written, no queue or
processing entry is touched and no `concurrent` counter changes — the only
other possible mutation is the user-limit check's lazy hourly-window reset,
which precedes the breaker check.  The dispatcher (`processQueue`), however,
does not consult the breaker, so jobs already queued can still be dispatched
(see the counterexample). -/
theorem breaker_open_blocks_admission (st : QState) (now : Int) (jobData : Job) (uid : String)
    (h1 : uid = jsOrStr jobData.userId ("unknown"))
    (h2 : jsTruthyStr jobData.separationId = true)
    (h3 : (checkUserLimits st.users uid now).1 = true)
    (h4 : st.circuitBreakerState = CBState.OPEN) :
    addJob st now jobData
      = (false, updateJobStatus { st with users := (checkUserLimits st.users uid now).2 }
          jobData.separationId { status := JStatus.SERVICE_UNAVAILABLE })
    ∧ (∀ u2 : String,
        ((checkUserLimits st.users uid now).2 u2).concurrent = (st.users u2).concurrent) := by
  constructor
  · simp only [addJob, ← h1, if_pos h2, if_pos h3]
    simp [h4]
  · intro u2
    exact checkUserLimits_concurrent st.users uid now u2

/-- Witness for C1 amended: a concrete OPEN-breaker state rejects a fresh
submission with only the `SERVICE_UNAVAILABLE` status record written, its
`concurrent` counters untouched. -/
theorem breaker_open_blocks_admission_witness :
    (addJob stOpen 0 (jN ("jc") ("uc"))
        = (false, updateJobStatus
            { stOpen with users := (checkUserLimits stOpen.users ("uc") 0).2 }
            (some ("jc")) { status := JStatus.SERVICE_UNAVAILABLE }))
      ∧ (∀ u2 : String,
          ((checkUserLimits stOpen.users ("uc") 0).2 u2).concurrent
            = (stOpen.users u2).concurrent) :=
  breaker_open_blocks_admission stOpen 0 (jN ("jc") ("uc")) ("uc")
    (by decide) (by decide) (by decide) rfl

/-- C2 (code bug): `retryCount` is reset on re-admission.  After one
admission, one failed dispatch (which schedules the retry with
`retryCount = 1`), and the retry tick that re-admits the job, the re-enqueued
job carries `retryCount = 0` instead of retaining the incremented count —
`addJob` overwrites `retryCount` with 0 on every admission, so the cap of 3
in `shouldRetryJob` is never reached along the retry loop and the job is
retried again. -/
theorem retry_count_reset_on_readmission :
    c2S2.queueRetry.map (fun j => j.retryCount) = [some 1]
      ∧ c2S3.queueRetry = []
      ∧ c2S3.queueNormal.map (fun j => j.retryCount) = [some 0]
      ∧ shouldRetryJob { jN ("s1") ("u1") with retryCount := some 0 } errR = true :=
  ⟨by decide, by decide, by decide, by decide⟩

/-- C3 (code bug): after a dispatch-time submission failure the job is gone
from the processing set and either scheduled for retry (`RETRY_SCHEDULED`,
pushed onto the RETRY list) or marked `FAILED` — but the per-user hash, and
in particular the owner's `concurrent` counter, is left completely unchanged:
the failure path of `startJobProcessing` never calls
`decrementUserConcurrent`. -/
theorem submission_failure_no_decrement (st : QState) (now : Int) (jobData : Job)
    (e : JsError) :
    (startJobProcessing st now jobData (RunpodOutcome.failure e)).users = st.users
      ∧ lookupProc (startJobProcessing st now jobData (RunpodOutcome.failure e)).processing
          jobData.separationId = none
      ∧ (if shouldRetryJob jobData e = true then
          (startJobProcessing st now jobData (RunpodOutcome.failure e)).queueRetry
              = { jobData with
                  retryCount := some (jsOrNat jobData.retryCount 0 + 1)
                  lastError := some e.message
                  retryAt := some (now + 60000 * 2 ^ jsOrNat jobData.retryCount 0) }
                :: st.queueRetry
            ∧ ((startJobProcessing st now jobData (RunpodOutcome.failure e)).statuses
                  (keyOf jobData.separationId)).map StatusRecord.status
                = some JStatus.RETRY_SCHEDULED
        else
          (startJobProcessing st now jobData (RunpodOutcome.failure e)).queueRetry
              = st.queueRetry
            ∧ ((startJobProcessing st now jobData (RunpodOutcome.failure e)).statuses
                  (keyOf jobData.separationId)).map StatusRecord.status
                = some JStatus.FAILED) := by
  refine ⟨?_, ?_, ?_⟩
  · simp only [startJobProcessing]
    split
    · exact handleRunpodError_users _ _
    · exact handleRunpodError_users _ _
  · simp only [startJobProcessing]
    split
    · exact lookupProc_procDelete _ _
    · exact lookupProc_procDelete _ _
  · split
    · rename_i h
      refine ⟨?_, ?_⟩
      · simp only [startJobProcessing, if_pos h]
        rw [addJobToRetryQueue_queueRetry, Nat.add_sub_cancel]
        congr 1
        exact handleRunpodError_queueRetry _ _
      · simp only [startJobProcessing, if_pos h]
        rw [addJobToRetryQueue_statuses_key]
        rfl
    · rename_i h
      refine ⟨?_, ?_⟩
      · simp only [startJobProcessing, if_neg h]
        exact handleRunpodError_queueRetry _ _
      · simp only [startJobProcessing, if_neg h]
        simp [updateJobStatus]

/-- C4 counterexample: at the exact one-hour boundary the code and the claim
disagree.  With `concurrent = 0`, `hourly = 5`, `lastHourReset = 0` and
`now = 3600000` the claim's predicate (window elapsed at "at least 1 hour",
hence reset, hence no rejection) says the submission is not rate-limited, yet
`checkUserLimits` rejects it: the code resets the window only when strictly
more than one hour has passed. -/
theorem hourly_window_boundary_counterexample :
    (checkUserLimits (fun _ => { concurrent := 0, hourly := 5, lastHourReset := 0 })
        ("u1") 3600000).1 = false
      ∧ rateLimitedPerClaim { concurrent := 0, hourly := 5, lastHourReset := 0 } 3600000
          = false :=
  ⟨by decide, by decide⟩

/-- C4 (amended): admission is rejected with `RATE_LIMITED` exactly when the
user's `concurrent` count is ≥ 2, or when the hourly window has not strictly
elapsed (`now − lastHourReset ≤ 1 hour`) and `hourly ≥ 5`; the hourly counter
resets to zero when strictly more than one hour has passed; and a
`RATE_LIMITED` rejection writes only the status record — no queue is touched
and no quota counter changes. -/
theorem user_quota_rejection (st : QState) (now : Int) (jobData : Job) (uid : String)
    (h1 : uid = jsOrStr jobData.userId ("unknown"))
    (h2 : jsTruthyStr jobData.separationId = true) :
    ((checkUserLimits st.users uid now).1 = false
        ↔ ((st.users uid).concurrent ≥ 2
            ∨ (now - (st.users uid).lastHourReset ≤ 3600000 ∧ (st.users uid).hourly ≥ 5)))
      ∧ ((checkUserLimits st.users uid now).1 = false
          → addJob st now jobData
              = (false, updateJobStatus st jobData.separationId
                  { status := JStatus.RATE_LIMITED, userId := some uid }))
      ∧ ((st.users uid).concurrent < 2 → 3600000 < now - (st.users uid).lastHourReset
          → (checkUserLimits st.users uid now).1 = true
            ∧ (checkUserLimits st.users uid now).2 uid
              = { st.users uid with hourly := 0, lastHourReset := now }) := by
  refine ⟨?_, ?_, ?_⟩
  · simp only [checkUserLimits]
    split
    · rename_i hc
      exact iff_of_true rfl (Or.inl hc)
    · rename_i hc
      split
      · rename_i hw
        refine iff_of_false (by simp) ?_
        rintro (h | ⟨hle, hh⟩)
        · exact hc h
        · omega
      · rename_i hw
        split
        · rename_i hh
          refine iff_of_true rfl (Or.inr ⟨by omega, hh⟩)
        · rename_i hh
          refine iff_of_false (by simp) ?_
          rintro (h | ⟨hle, hh2⟩)
          · exact hc h
          · exact hh hh2
  · intro hrej
    have hsnd := checkUserLimits_rejected_snd st.users uid now hrej
    simp only [addJob, ← h1, if_pos h2, if_neg (by simp [hrej] :
      ¬((checkUserLimits st.users uid now).1 = true))]
    rw [hsnd]
  · intro hc hw
    have hc2 : ¬((st.users uid).concurrent ≥ 2) := by omega
    have hw2 : (st.users uid).lastHourReset < now - 3600000 := by omega
    constructor
    · simp [checkUserLimits, hc2, hw2]
    · simp [checkUserLimits, hc2, hw2, updateUser]

/-- Witness for C4 amended: a user with two concurrent jobs is rejected with
only a `RATE_LIMITED` status written, and a user whose window started more
than an hour ago gets the lazy hourly reset. -/
theorem user_quota_rejection_witness :
    (checkUserLimits stConc2.users ("ua") 0).1 = false
      ∧ addJob stConc2 0 (jN ("ja") ("ua"))
          = (false, updateJobStatus stConc2 (some ("ja"))
              { status := JStatus.RATE_LIMITED, userId := some ("ua") })
      ∧ (checkUserLimits stHourly3.users ("ub") 4000000).1 = true
      ∧ (checkUserLimits stHourly3.users ("ub") 4000000).2 ("ub")
          = { concurrent := 0, hourly := 0, lastHourReset := 4000000 } := by
  have ta := user_quota_rejection stConc2 0 (jN ("ja") ("ua")) ("ua") (by decide) (by decide)
  have tb := user_quota_rejection stHourly3 4000000 (jN ("jb") ("ub")) ("ub")
    (by decide) (by decide)
  have hra : (checkUserLimits stConc2.users ("ua") 0).1 = false :=
    ta.1.mpr (Or.inl (by decide))
  exact ⟨hra, ta.2.1 hra, (tb.2.2 (by decide) (by decide)).1,
    (tb.2.2 (by decide) (by decide)).2⟩

/-- C5 counterexample: with the queue at its capacity ceiling, a submission
from a user whose hourly window has elapsed is rejected with `QUEUE_FULL` and
the rejection counter increments — but the user's quota record *is* modified
(the limit check lazily resets `hourly` from 1 to 0 and moves the window
start), contradicting the claim that no quota counter is modified. -/
theorem queue_full_modifies_quota_counterexample :
    c5R.1 = false
      ∧ (c5R.2.statuses ("t3")).map StatusRecord.status = some JStatus.QUEUE_FULL
      ∧ c5R.2.metrics.queueFullRejections = 1
      ∧ (c5S2.users ("u1")).hourly = 1
      ∧ (c5R.2.users ("u1")).hourly = 0
      ∧ (c5R.2.users ("u1")).lastHourReset = 4000000 :=
  ⟨by decide, by decide, by decide, by decide, by decide, by decide⟩

/-- C5 (amended): a submission that passes validation, the user-limit check
and the breaker check while the total queue depth is at or above
`MAX_QUEUE_SIZE` is rejected with `QUEUE_FULL`; the rejection counter
increments by exactly one, only the `QUEUE_FULL` status record is written,
the queues and the processing set are untouched and no `concurrent` counter
changes — the only other possible mutation is the user-limit check's lazy
hourly-window reset, which precedes the capacity check. -/
theorem queue_full_rejection (st : QState) (now : Int) (jobData : Job) (uid : String)
    (h1 : uid = jsOrStr jobData.userId ("unknown"))
    (h2 : jsTruthyStr jobData.separationId = true)
    (h3 : (checkUserLimits st.users uid now).1 = true)
    (h4 : st.circuitBreakerState ≠ CBState.OPEN)
    (h5 : st.cfg.MAX_QUEUE_SIZE ≤ getTotalQueueSize st) :
    addJob st now jobData
      = (false,
          updateJobStatus
            { st with
              users := (checkUserLimits st.users uid now).2
              metrics := { st.metrics with
                queueFullRejections := st.metrics.queueFullRejections + 1 } }
            jobData.separationId
            { status := JStatus.QUEUE_FULL
              currentQueueSize := some (getTotalQueueSize st)
              maxQueueSize := some st.cfg.MAX_QUEUE_SIZE })
      ∧ (∀ u2 : String,
          ((checkUserLimits st.users uid now).2 u2).concurrent = (st.users u2).concurrent) := by
  constructor
  · have h5b : st.cfg.MAX_QUEUE_SIZE
        ≤ st.queueHigh.length + st.queueNormal.length + st.queueRetry.length := h5
    simp only [addJob, ← h1, if_pos h2, if_pos h3]
    simp [h4, getTotalQueueSize, h5b]
  · intro u2
    exact checkUserLimits_concurrent st.users uid now u2

/-- Witness for C5 amended at the concrete capacity-2 state `c5S2`. -/
theorem queue_full_rejection_witness :
    addJob c5S2 4000000 (jN ("t3") ("u1"))
      = (false,
          updateJobStatus
            { c5S2 with
              users := (checkUserLimits c5S2.users ("u1") 4000000).2
              metrics := { c5S2.metrics with
                queueFullRejections := c5S2.metrics.queueFullRejections + 1 } }
            (some ("t3"))
            { status := JStatus.QUEUE_FULL
              currentQueueSize := some (getTotalQueueSize c5S2)
              maxQueueSize := some c5S2.cfg.MAX_QUEUE_SIZE })
      ∧ (∀ u2 : String,
          ((checkUserLimits c5S2.users ("u1") 4000000).2 u2).concurrent
            = (c5S2.users u2).concurrent) :=
  queue_full_rejection c5S2 4000000 (jN ("t3") ("u1")) ("u1")
    (by decide) (by decide) (by decide) (by decide) (by decide)

/-- C8 counterexample: a submission with a `separationId` but no payload (no
`filePath`, no `publicUrl`) is **accepted** by `addJob` — admission validates
only `separationId`, so a missing payload is not rejected with any
invalid-job outcome. -/
theorem missing_payload_accepted :
    (addJob initS 1000 jNoPayload).1 = true
      ∧ jNoPayload.filePath = none
      ∧ jNoPayload.publicUrl = none :=
  ⟨by decide, rfl, rfl⟩

/-- C8 (amended): a submission with missing job data (absent or empty
`separationId`) is rejected before any other check runs — regardless of
quota, breaker or queue state — and the rejection is recorded as a
`QUEUE_ERROR` status carrying the thrown validation message (not an
`INVALID_JOB` status, which does not exist in the code); a missing payload is
not validated at admission. -/
theorem invalid_job_rejected_first (st : QState) (now : Int) (jobData : Job)
    (h : jsTruthyStr jobData.separationId = false) :
    addJob st now jobData
      = (false, updateJobStatus st jobData.separationId
          { status := JStatus.QUEUE_ERROR
            error := some ("Invalid job data: separationId is required") }) := by
  simp [addJob, h]

/-- Witness for C8 amended: the empty submission object. -/
theorem invalid_job_rejected_first_witness :
    addJob initS 1000 {}
      = (false, updateJobStatus initS none
          { status := JStatus.QUEUE_ERROR
            error := some ("Invalid job data: separationId is required") }) :=
  invalid_job_rejected_first initS 1000 {} (by decide)

/-- Witness for C10 at a configuration whose NORMAL slot count is zero
(`MAX_CONCURRENT_JOBS = PRIORITY_FILE_LIMIT = 3`) and queue position 4. -/
theorem estimated_wait_safe_witness :
    (1 : Int) ≤ max 1
        ((if Priority.NORMAL = Priority.HIGH then
            (initState { MAX_CONCURRENT_JOBS := 3, PRIORITY_FILE_LIMIT := 3 }).cfg.PRIORITY_FILE_LIMIT
          else (initState { MAX_CONCURRENT_JOBS := 3, PRIORITY_FILE_LIMIT := 3 }).cfg.MAX_CONCURRENT_JOBS
            - (initState { MAX_CONCURRENT_JOBS := 3, PRIORITY_FILE_LIMIT := 3 }).cfg.PRIORITY_FILE_LIMIT)
          - (((initState { MAX_CONCURRENT_JOBS := 3, PRIORITY_FILE_LIMIT := 3 }).processing.filter
              (fun p => decide (p.job.priority = some Priority.NORMAL))).length : Int))
      ∧ 0 ≤ calculateEstimatedWait
          (initState { MAX_CONCURRENT_JOBS := 3, PRIORITY_FILE_LIMIT := 3 }) 4 Priority.NORMAL :=
  estimated_wait_safe (initState { MAX_CONCURRENT_JOBS := 3, PRIORITY_FILE_LIMIT := 3 }) 4
    Priority.NORMAL (by norm_num [initState])

end SmartQueue
